import Mathlib

/-!
Verification of the Torn City bank bot (`src/main.py`).

The development shallowly embeds the bot's domain logic:

* parsed JSON values (`Json`) as returned by `resp.json()`, with Python
  dict operations (`in`, `[k]`, `.get(k, d)`, `.values()`) modelled so
  that operations Python would raise on return `Except.error` carrying
  the Python exception's name;
* the credential store (`data.json`) as a mapping from user id to the
  stored record, with `load_data` / `save_data` over an abstract file
  state;
* `fetch_torn_data` parametrised by the HTTP response it would receive,
  returning both the Python return value and the log lines printed;
* the `/key` handler (`key_command`) and the `/bank` handler (`bank`),
  parametrised by the remote response; `bank` additionally reports the
  list of outbound API calls it performs, so that "no remote call is
  made" is expressible;
* the elided `deletekey` command, modelled from the specification.

Timestamps are epoch seconds as `Int`; `datetime.utcfromtimestamp` is a
monotone injective embedding of epoch seconds into UTC datetimes, so
datetime comparisons are modelled as integer comparisons and a rendered
datetime is represented by the epoch value itself.
-/

namespace TornBank

/-- Parsed JSON values, the possible results of `resp.json()`. -/
inductive Json where
  | null
  | boolean (b : Bool)
  | num (n : Int)
  | str (s : String)
  | obj (fields : List (String × Json))

/-- First binding of key `k` in a JSON object's field list (Python dict
keys are unique, so first-match lookup is dict lookup). -/
def jlookup (fields : List (String × Json)) (k : String) : Option Json :=
  (fields.find? (fun p => p.1 == k)).map Prod.snd

/-- Python `k in d` for a dict `d`. -/
def hasKey (fields : List (String × Json)) (k : String) : Bool :=
  fields.any (fun p => p.1 == k)

/-- Python truthiness of a JSON value (`if x:`). -/
def Json.truthy : Json → Bool
  | Json.null => false
  | Json.boolean b => b
  | Json.num n => n != 0
  | Json.str s => !s.isEmpty
  | Json.obj fs => !fs.isEmpty

/-- Python `e[k]`: `KeyError` on a missing key, `TypeError` when `e` is
not a dict. -/
def jindexE (e : Json) (k : String) : Except String Json :=
  match e with
  | Json.obj fs =>
    match jlookup fs k with
    | some v => Except.ok v
    | none => Except.error "KeyError"
  | _ => Except.error "TypeError"

/-- Python `e.get(k, dflt)`: only dicts have `.get`, anything else
raises `AttributeError`. -/
def jgetDE (e : Json) (k : String) (dflt : Json) : Except String Json :=
  match e with
  | Json.obj fs => Except.ok ((jlookup fs k).getD dflt)
  | _ => Except.error "AttributeError"

/-- Python `d.values()` (insertion order); raises on non-dicts. -/
def jvaluesE : Json → Except String (List Json)
  | Json.obj fs => Except.ok (fs.map Prod.snd)
  | _ => Except.error "AttributeError"

/-- `datetime.utcfromtimestamp(x)` evaluated to epoch seconds: defined
for numbers (and bools, which are ints in Python), `TypeError`
otherwise. -/
def asEpoch : Json → Except String Int
  | Json.num n => Except.ok n
  | Json.boolean b => Except.ok (if b then 1 else 0)
  | _ => Except.error "TypeError"

/-- Python `x.lower()` is only available on strings. -/
def asStrE : Json → Except String String
  | Json.str s => Except.ok s
  | _ => Except.error "AttributeError"

/-- Python `str.lower()` (per-character lowercasing). -/
def strLower (s : String) : String := String.mk (s.data.map Char.toLower)

/-- Python `needle in hay` substring test on strings. -/
def strContains (hay needle : String) : Bool :=
  hay.data.tails.any (fun t => needle.data.isPrefixOf t)

/-- The fixed keyword list of the `/bank` filter (main.py lines 124-126). -/
def keywords : List String :=
  ["paid", "deposit", "withdraw", "sold", "received", "sent"]

/-- `any(word in title.lower() for word in keywords)`. -/
def hasKeywordB (title : String) : Bool :=
  keywords.any (fun w => strContains (strLower title) w)

/-- Record persisted per user: `{"key": api_key, "player": player_name}`
(main.py line 84). The player name is whatever JSON value
`torn_data.get("name", "Unknown")` produced. -/
structure UserRecord where
  key : String
  player : Json

/-- The stored mapping from Discord user id to record. -/
abbrev Store := String → Option UserRecord

def emptyStore : Store := fun _ => none

/-- Python dict assignment `data[uid] = r`. -/
def storeInsert (s : Store) (uid : String) (r : UserRecord) : Store :=
  fun u => if u = uid then some r else s u

/-- Python `data.pop(uid, None)` / `del data[uid]` on a present key. -/
def storeRemove (s : Store) (uid : String) : Store :=
  fun u => if u = uid then none else s u

/-- State of the backing file `data.json`: missing, unparsable, or a
parsed mapping. -/
inductive FileState where
  | absent
  | corrupt
  | ok (contents : Store)

/-- `load_data` (main.py lines 33-39): `json.load` result on success,
`{}` on `FileNotFoundError` or `json.JSONDecodeError`. -/
def load_data : FileState → Store
  | FileState.ok d => d
  | FileState.absent => emptyStore
  | FileState.corrupt => emptyStore

/-- `save_data` (main.py lines 41-44): overwrites the backing file. -/
def save_data (d : Store) : FileState := FileState.ok d

/-- An HTTP response as seen by `fetch_torn_data`: status code and the
body `resp.json()` would parse to. -/
structure HttpResponse where
  status : Nat
  body : Json

/-- The request URL built on main.py line 58. -/
def tornUrl (selections key : String) : String :=
  "https://api.torn.com/user?selections=" ++ selections ++ "&key=" ++ key ++
    "&comment=bankbot"

/-- The line printed on main.py line 64 for a failed request. -/
def failLogLine (status : Nat) (selections key : String) : String :=
  "Torn API Request Failed: Status " ++ toString status ++ " for URL: " ++
    tornUrl selections key

/-- `fetch_torn_data` (main.py lines 47-66), parametrised by the HTTP
response. Returns the Python return value (parsed body on 200, `None`
otherwise) together with the list of log lines printed. -/
def fetch_torn_data (selections key : String) (resp : HttpResponse) :
    Option Json × List String :=
  if resp.status = 200 then (some resp.body, [])
  else (none, [failLogLine resp.status selections key])

/-- Outcome of the `/key` command sent back to the user. -/
inductive KeyMsg where
  | apiError (msg : Json)
  | saved (player : Json)

/-- Outcome of the `/bank` command sent back to the user. -/
inductive ReportLine where
  | header (player : Json)
  | blank
  | noTransactions
  | entry (ts : Int) (title : Json)
  | networthLine (total : Int)

inductive BankMsg where
  | mustRegister
  | apiError (msg : Json)
  | report (lines : List ReportLine)

/-- One outbound Torn API request (selections string and key used). -/
structure ApiCall where
  selections : String
  key : String

/-- `torn_data.get("error", \x7b\x7d).get("error", dflt)` (main.py lines
79 and 108): raises `AttributeError` when the `error` value is not a
dict. -/
def errorMsgOf (fields : List (String × Json)) (dflt : String) :
    Except String Json :=
  match (jlookup fields "error").getD (Json.obj []) with
  | Json.obj ef => Except.ok ((jlookup ef "error").getD (Json.str dflt))
  | _ => Except.error "AttributeError"

/-- The `/key` handler (main.py lines 70-87), parametrised by the parsed
response of the validation call `fetch_torn_data("basic", api_key)` (the
Torn API answers with JSON objects, so the parsed body is a field list;
`none` is a failed request). The first component is the resulting
persistent store: it is the input store unless `save_data` ran. The
second component is the message sent, or the name of the exception the
handler raised. -/
def key_command (store : Store) (uid api_key : String)
    (torn_data : Option (List (String × Json))) :
    Store × Except String KeyMsg :=
  match torn_data with
  | none =>
    (store, Except.ok (KeyMsg.apiError (Json.str "Failed to connect to Torn API.")))
  | some td =>
    if td.isEmpty then
      (store, Except.ok (KeyMsg.apiError (Json.str "Failed to connect to Torn API.")))
    else if hasKey td "error" then
      match errorMsgOf td "Invalid or restricted API key." with
      | Except.ok m => (store, Except.ok (KeyMsg.apiError m))
      | Except.error e => (store, Except.error e)
    else
      let player := (jlookup td "name").getD (Json.str "Unknown")
      (storeInsert store uid ⟨api_key, player⟩, Except.ok (KeyMsg.saved player))

/-- The filter loop of `/bank` (main.py lines 119-127): walks the log
values in order, appending an entry to the accumulator when its
timestamp is at or after the cutoff and its lowercased title contains a
keyword. Field access and `.lower()` raise exactly where Python would. -/
def bankFilterLoop (cutoff : Int) (acc : List Json) :
    List Json → Except String (List Json)
  | [] => Except.ok acc
  | e :: rest => do
    let tsv ← jindexE e "timestamp"
    let ts ← asEpoch tsv
    if cutoff ≤ ts then do
      let tv ← jindexE e "title"
      let t ← asStrE tv
      if hasKeywordB t then bankFilterLoop cutoff (acc ++ [e]) rest
      else bankFilterLoop cutoff acc rest
    else bankFilterLoop cutoff acc rest

/-- The sort key `lambda x: x["timestamp"]` (main.py line 133), made
total: every entry that reaches the sort passed the filter loop and so
carries an epoch timestamp, on which this agrees with Python. -/
def tsKey (e : Json) : Int :=
  match e with
  | Json.obj fs =>
    match jlookup fs "timestamp" with
    | some (Json.num n) => n
    | some (Json.boolean b) => if b then 1 else 0
    | _ => 0
  | _ => 0

/-- `entry["title"]` as rendered on main.py line 135, made total: every
entry that reaches the rendering loop passed the filter and has a title. -/
def titleKey (e : Json) : Json :=
  match jindexE e "title" with
  | Except.ok v => v
  | Except.error _ => Json.null

/-- Descending-timestamp ordering. Python's `sorted(key=..., reverse=True)`
is the stable descending sort, which coincides with stable insertion
sort under this relation. -/
def tsGe (a b : Json) : Prop := tsKey b ≤ tsKey a

instance : DecidableRel tsGe :=
  fun a b => inferInstanceAs (Decidable (tsKey b ≤ tsKey a))

instance : IsTotal Json tsGe := ⟨fun a b => le_total (tsKey b) (tsKey a)⟩

instance : IsTrans Json tsGe := ⟨fun _ _ _ h1 h2 => le_trans h2 h1⟩

/-- The rendering loop over the 25 newest kept entries (main.py lines
133-135): one line per entry, indexing the timestamp and title fields. -/
def renderLoop : List Json → Except String (List ReportLine)
  | [] => Except.ok []
  | e :: rest => do
    let tsv ← jindexE e "timestamp"
    let ts ← asEpoch tsv
    let title ← jindexE e "title"
    let tail ← renderLoop rest
    Except.ok (ReportLine.entry ts title :: tail)

/-- The log section of the `/bank` report (main.py lines 117-135):
values of the log dict, filter loop, and either the fixed
no-transactions line or the 25 newest kept entries rendered
newest-first. -/
def processLogs (cutoff : Int) (logs : Json) :
    Except String (List ReportLine) := do
  let vals ← jvaluesE logs
  let filtered ← bankFilterLoop cutoff [] vals
  if filtered.isEmpty then Except.ok [ReportLine.noTransactions]
  else renderLoop ((List.insertionSort tsGe filtered).take 25)

/-- The networth section of the `/bank` report (main.py lines 138-140):
appended only when `networth_data` is truthy; `.get("total", 0)` and the
numeric format specifier raise on unsuitable values. -/
def networthLines (nw : Json) : Except String (List ReportLine) :=
  if nw.truthy then do
    let total ← jgetDE nw "total" (Json.num 0)
    let n ← asEpoch total
    Except.ok [ReportLine.networthLine n]
  else Except.ok []

/-- The `/bank` handler after the fetch returned (main.py lines
107-142), parametrised by the parsed combined response. -/
def bankAfterFetch (rec : UserRecord) (now : Int)
    (all_data : Option (List (String × Json))) : Except String BankMsg :=
  match all_data with
  | none =>
    Except.ok (BankMsg.apiError (Json.str "Failed to connect to Torn API."))
  | some ad =>
    if ad.isEmpty then
      Except.ok (BankMsg.apiError (Json.str "Failed to connect to Torn API."))
    else if hasKey ad "error" then
      (errorMsgOf ad "Failed to fetch Torn data.").map BankMsg.apiError
    else do
      let logs := (jlookup ad "log").getD (Json.obj [])
      let nw := (jlookup ad "networth").getD (Json.obj [])
      let logLines ← processLogs (now - 60 * 86400) logs
      let netLines ← networthLines nw
      Except.ok (BankMsg.report
        ([ReportLine.header rec.player, ReportLine.blank] ++ logLines ++ netLines))

/-- The `/bank` handler (main.py lines 91-142), parametrised by the
parsed response the single combined fetch would deliver. Besides the
outcome (message sent, or exception raised) it returns the list of
outbound API calls performed. -/
def bank (store : Store) (uid : String) (now : Int)
    (fetchResult : Option (List (String × Json))) :
    Except String BankMsg × List ApiCall :=
  match store uid with
  | none => (Except.ok BankMsg.mustRegister, [])
  | some rec => (bankAfterFetch rec now fetchResult, [⟨"log,networth", rec.key⟩])

/-- Outcome of the `deletekey` command. -/
inductive DeleteMsg where
  | removed
  | notFound

/-- Modelled from the spec: the `deletekey` command body is elided from
`src/main.py` (line 89 reads "... (deletekey command is unchanged)"), so
this follows spec 4.1: "`delete(userId)`: removes the entry if present;
no-op otherwise, both are success paths with different user-facing
messages." -/
def delete_key (store : Store) (uid : String) : Store × DeleteMsg :=
  match store uid with
  | some _ => (storeRemove store uid, DeleteMsg.removed)
  | none => (store, DeleteMsg.notFound)

/-! Specification-side characterisations used to state the claims. -/

/-- Integer `timestamp` field of a log entry, when it has one. -/
def tsNum (e : Json) : Option Int :=
  match e with
  | Json.obj fs =>
    match jlookup fs "timestamp" with
    | some (Json.num n) => some n
    | _ => none
  | _ => none

/-- String `title` field of a log entry, when it has one. -/
def titleStr (e : Json) : Option String :=
  match e with
  | Json.obj fs =>
    match jlookup fs "title" with
    | some (Json.str s) => some s
    | _ => none
  | _ => none

/-- Well-formed log entry in the sense of the spec's data model: a dict
carrying an integer `timestamp` and a string `title`. -/
def wfEntry (e : Json) : Bool :=
  (tsNum e).isSome && (titleStr e).isSome

/-- The filter predicate of the claim: timestamp at or after the cutoff
and lowercased title containing a keyword. -/
def keepB (cutoff : Int) (e : Json) : Bool :=
  match tsNum e, titleStr e with
  | some n, some s => decide (cutoff ≤ n) && hasKeywordB s
  | _, _ => false

/-- The log entries the claim says the report retains. -/
def keptSpec (cutoff : Int) (logMap : List (String × Json)) : List Json :=
  (logMap.map Prod.snd).filter (keepB cutoff)

/-- The retained entries after the stable descending sort by timestamp
and the 25-item cap. -/
def topSpec (cutoff : Int) (logMap : List (String × Json)) : List Json :=
  (List.insertionSort tsGe (keptSpec cutoff logMap)).take 25

/-- Expected log section: keyword-and-recency filter, stable descending
sort by timestamp, first 25, one line per entry; the fixed
no-transactions line when nothing is kept. -/
def logLinesSpec (cutoff : Int) (logMap : List (String × Json)) :
    List ReportLine :=
  if (keptSpec cutoff logMap).isEmpty then [ReportLine.noTransactions]
  else (topSpec cutoff logMap).map
    (fun e => ReportLine.entry (tsKey e) (titleKey e))

/-- Dicts whose `total` (when present) the numeric format specifier
accepts. -/
def totalOk (nw : Json) : Bool :=
  match nw with
  | Json.obj fs =>
    match jlookup fs "total" with
    | none => true
    | some (Json.num _) => true
    | some (Json.boolean _) => true
    | some _ => false
  | _ => false

/-- Networth sections the handler can format without raising: falsy, or
a dict whose `total` (when present) is numeric. -/
def nwOk (nw : Json) : Bool := !nw.truthy || totalOk nw

/-- The value the networth line shows: the section's `total` if present,
else the default 0. -/
def netValue (nw : Json) : Int :=
  match nw with
  | Json.obj fs =>
    match jlookup fs "total" with
    | some (Json.num n) => n
    | some (Json.boolean b) => if b then 1 else 0
    | _ => 0
  | _ => 0

/-- Expected networth section: one line showing the total (default 0)
when the section is truthy, nothing otherwise. -/
def netLinesSpec (nw : Json) : List ReportLine :=
  if nw.truthy then [ReportLine.networthLine (netValue nw)] else []

/-- The full expected line list of a produced report: header, blank
line, log section, networth section. -/
def reportLinesSpec (rec : UserRecord) (cutoff : Int)
    (logMap : List (String × Json)) (nw : Json) : List ReportLine :=
  [ReportLine.header rec.player, ReportLine.blank] ++
    logLinesSpec cutoff logMap ++ netLinesSpec nw

/-- Claim C5 as stated: the value `fetch_torn_data` returns on a failed
response includes the HTTP status, i.e. distinct failed statuses yield
distinct return values. -/
def fetchFailureMarkerIncludesStatus : Prop :=
  ∀ (sel key : String) (r1 r2 : HttpResponse),
    r1.status ≠ 200 → r2.status ≠ 200 → r1.status ≠ r2.status →
      (fetch_torn_data sel key r1).1 ≠ (fetch_torn_data sel key r2).1

/-- Helper: does the `error` value of a response (defaulting to the
empty dict) support `.get`, i.e. is it a dict? -/
def errorValueIsObj (fields : List (String × Json)) : Bool :=
  match (jlookup fields "error").getD (Json.obj []) with
  | Json.obj _ => true
  | _ => false

/-- Does the `/key` handler raise instead of sending a message? Exactly
when the response is a non-empty dict whose `error` value is not a dict. -/
def registerRaises (torn_data : Option (List (String × Json))) : Bool :=
  match torn_data with
  | none => false
  | some td => !td.isEmpty && hasKey td "error" && !errorValueIsObj td

/-! Helper lemmas. -/

theorem jlookup_eq_none_of_hasKey (fields : List (String × Json)) (k : String)
    (h : hasKey fields k = false) : jlookup fields k = none := by
  unfold jlookup
  rw [List.find?_eq_none.2, Option.map_none']
  intro x hx
  simp only [hasKey, List.any_eq_false] at h
  exact h x hx

theorem isEmpty_eq_false_of_hasKey (fields : List (String × Json)) (k : String)
    (h : hasKey fields k = true) : fields.isEmpty = false := by
  cases fields with
  | nil => simp [hasKey] at h
  | cons a l => rfl

theorem tsNum_spec (e : Json) (n : Int) (h : tsNum e = some n) :
    jindexE e "timestamp" = Except.ok (Json.num n) ∧ tsKey e = n := by
  unfold tsNum at h
  split at h
  · rename_i fs heq
    split at h
    · rename_i m hl
      cases h
      constructor
      · simp [jindexE, hl]
      · simp [tsKey, hl]
    · exact absurd h (by simp)
  · exact absurd h (by simp)

theorem titleStr_spec (e : Json) (s : String) (h : titleStr e = some s) :
    jindexE e "title" = Except.ok (Json.str s) ∧ titleKey e = Json.str s := by
  unfold titleStr at h
  split at h
  · rename_i fs heq
    split at h
    · rename_i m hl
      cases h
      constructor
      · simp [jindexE, hl]
      · simp [titleKey, jindexE, hl]
    · exact absurd h (by simp)
  · exact absurd h (by simp)

theorem wfEntry_exists (e : Json) :
    wfEntry e = true ↔ ∃ n s, tsNum e = some n ∧ titleStr e = some s := by
  simp only [wfEntry, Bool.and_eq_true, Option.isSome_iff_exists]
  constructor
  · rintro ⟨⟨n, hn⟩, ⟨s, hs⟩⟩
    exact ⟨n, s, hn, hs⟩
  · rintro ⟨n, s, hn, hs⟩
    exact ⟨⟨n, hn⟩, ⟨s, hs⟩⟩

theorem keepB_eq (cutoff : Int) (e : Json) (n : Int) (s : String)
    (hn : tsNum e = some n) (hs : titleStr e = some s) :
    keepB cutoff e = (decide (cutoff ≤ n) && hasKeywordB s) := by
  unfold keepB
  rw [hn, hs]

theorem keepB_elim (cutoff : Int) (e : Json) (h : keepB cutoff e = true) :
    ∃ n s, tsNum e = some n ∧ titleStr e = some s ∧
      cutoff ≤ n ∧ hasKeywordB s = true := by
  unfold keepB at h
  split at h
  · rename_i n s hn hs
    rw [Bool.and_eq_true, decide_eq_true_eq] at h
    exact ⟨n, s, hn, hs, h.1, h.2⟩
  · exact absurd h (by simp)

theorem wfEntry_of_keepB (cutoff : Int) (e : Json) (h : keepB cutoff e = true) :
    wfEntry e = true := by
  obtain ⟨n, s, hn, hs, _, _⟩ := keepB_elim cutoff e h
  exact (wfEntry_exists e).2 ⟨n, s, hn, hs⟩

theorem errorMsgOf_of_obj (fields : List (String × Json)) (dflt : String)
    (h : errorValueIsObj fields = true) :
    ∃ m, errorMsgOf fields dflt = Except.ok m := by
  unfold errorValueIsObj at h
  unfold errorMsgOf
  split at h
  · exact ⟨_, rfl⟩
  · exact absurd h (by simp)

theorem errorMsgOf_of_not_obj (fields : List (String × Json)) (dflt : String)
    (h : errorValueIsObj fields = false) :
    errorMsgOf fields dflt = Except.error "AttributeError" := by
  unfold errorValueIsObj at h
  unfold errorMsgOf
  split at h
  · exact absurd h (by simp)
  · rfl

theorem bankFilterLoop_eq_filter (cutoff : Int) :
    ∀ (l acc : List Json), l.all wfEntry = true →
      bankFilterLoop cutoff acc l = Except.ok (acc ++ l.filter (keepB cutoff))
  | [], acc, _ => by simp [bankFilterLoop]
  | e :: rest, acc, h => by
    rw [List.all_cons, Bool.and_eq_true] at h
    obtain ⟨he, hrest⟩ := h
    obtain ⟨n, s, hn, hs⟩ := (wfEntry_exists e).1 he
    have h1 := (tsNum_spec e n hn).1
    have h2 := (titleStr_spec e s hs).1
    rw [List.filter_cons, keepB_eq cutoff e n s hn hs]
    by_cases hc : cutoff ≤ n
    · by_cases hk : hasKeywordB s = true
      · simp only [bankFilterLoop, h1, h2, asEpoch, asStrE, bind, Except.bind,
          if_pos hc, hk, if_true]
        rw [bankFilterLoop_eq_filter cutoff rest (acc ++ [e]) hrest]
        simp [hc, hk, List.append_assoc]
      · rw [Bool.not_eq_true] at hk
        simp only [bankFilterLoop, h1, h2, asEpoch, asStrE, bind, Except.bind,
          if_pos hc, hk, if_false]
        rw [bankFilterLoop_eq_filter cutoff rest acc hrest]
        simp [hc, hk]
    · simp only [bankFilterLoop, h1, h2, asEpoch, asStrE, bind, Except.bind,
        if_neg hc]
      rw [bankFilterLoop_eq_filter cutoff rest acc hrest]
      simp [hc]

theorem renderLoop_eq_map :
    ∀ (l : List Json), l.all wfEntry = true →
      renderLoop l =
        Except.ok (l.map fun e => ReportLine.entry (tsKey e) (titleKey e))
  | [], _ => by simp [renderLoop]
  | e :: rest, h => by
    rw [List.all_cons, Bool.and_eq_true] at h
    obtain ⟨he, hrest⟩ := h
    obtain ⟨n, s, hn, hs⟩ := (wfEntry_exists e).1 he
    obtain ⟨h1, h1k⟩ := tsNum_spec e n hn
    obtain ⟨h2, h2k⟩ := titleStr_spec e s hs
    simp only [renderLoop, h1, h2, asEpoch, bind, Except.bind,
      renderLoop_eq_map rest hrest, List.map_cons]
    rw [h1k, h2k]

theorem mem_topSpec_keepB (cutoff : Int) (logMap : List (String × Json))
    (e : Json) (h : e ∈ topSpec cutoff logMap) : keepB cutoff e = true := by
  unfold topSpec at h
  have h1 : e ∈ List.insertionSort tsGe (keptSpec cutoff logMap) :=
    List.take_subset 25 _ h
  have h2 : e ∈ keptSpec cutoff logMap := (List.mem_insertionSort tsGe).1 h1
  exact (List.mem_filter.1 h2).2

theorem processLogs_eq (cutoff : Int) (logMap : List (String × Json))
    (h : (logMap.map Prod.snd).all wfEntry = true) :
    processLogs cutoff (Json.obj logMap) =
      Except.ok (logLinesSpec cutoff logMap) := by
  have hloop := bankFilterLoop_eq_filter cutoff (logMap.map Prod.snd) [] h
  simp only [processLogs, jvaluesE, bind, Except.bind, hloop,
    List.nil_append]
  unfold logLinesSpec keptSpec topSpec
  by_cases hk : ((logMap.map Prod.snd).filter (keepB cutoff)).isEmpty = true
  · rw [if_pos hk, if_pos hk]
  · rw [if_neg hk, if_neg hk]
    have hall : ((List.insertionSort tsGe
        ((logMap.map Prod.snd).filter (keepB cutoff))).take 25).all
          wfEntry = true := by
      rw [List.all_eq_true]
      intro e he
      have h1 : e ∈ List.insertionSort tsGe
          ((logMap.map Prod.snd).filter (keepB cutoff)) :=
        List.take_subset 25 _ he
      have h2 := (List.mem_insertionSort tsGe).1 h1
      exact wfEntry_of_keepB cutoff e (List.mem_filter.1 h2).2
    exact renderLoop_eq_map _ hall

theorem networthLines_eq (nw : Json) (h : nwOk nw = true) :
    networthLines nw = Except.ok (netLinesSpec nw) := by
  by_cases ht : nw.truthy = true
  · have htot : totalOk nw = true := by
      unfold nwOk at h
      rw [ht] at h
      simpa using h
    unfold networthLines netLinesSpec
    unfold totalOk at htot
    split at htot
    · rename_i fs
      split at htot
      · rename_i hl
        simp [ht, jgetDE, hl, asEpoch, netValue, bind, Except.bind]
      · rename_i n hl
        simp [ht, jgetDE, hl, asEpoch, netValue, bind, Except.bind]
      · rename_i b hl
        simp [ht, jgetDE, hl, asEpoch, netValue, bind, Except.bind]
      · exact absurd htot (by simp)
    · exact absurd htot (by simp)
  · unfold networthLines netLinesSpec
    simp [ht]

theorem bank_report_eq (store : Store) (uid : String) (rec : UserRecord)
    (now : Int) (ad logMap : List (String × Json))
    (hreg : store uid = some rec) (hne : ad.isEmpty = false)
    (herr : hasKey ad "error" = false)
    (hlog : jlookup ad "log" = some (Json.obj logMap))
    (hwf : (logMap.map Prod.snd).all wfEntry = true)
    (hnw : nwOk ((jlookup ad "networth").getD (Json.obj [])) = true) :
    (bank store uid now (some ad)).1 =
      Except.ok (BankMsg.report (reportLinesSpec rec (now - 60 * 86400) logMap
        ((jlookup ad "networth").getD (Json.obj [])))) := by
  have hpl := processLogs_eq (now - 60 * 86400) logMap hwf
  have hnet := networthLines_eq ((jlookup ad "networth").getD (Json.obj [])) hnw
  simp only [bank, hreg, bankAfterFetch, hne, herr, hlog, Bool.false_eq_true,
    if_false, reduceIte, Option.getD_some, hpl, hnet, bind, Except.bind,
    reportLinesSpec, List.cons_append, List.nil_append]

/-! Claim theorems. -/

/-- C7: load_data returns the full stored mapping when the backing file
exists and parses, and returns the empty mapping (without raising, being
a total function) when the backing file is absent or unparsable. -/
theorem c7_load_returns_mapping_or_empty :
    (∀ m : Store, load_data (FileState.ok m) = m) ∧
    load_data FileState.absent = emptyStore ∧
    load_data FileState.corrupt = emptyStore :=
  ⟨fun _ => rfl, rfl, rfl⟩

/-- C4: when the invoking user has no entry in the store, the bank
command replies with the registration-required message and performs no
outbound API call; the result is the same for every possible remote
response, so it is independent of the remote. -/
theorem c4_unregistered_report_no_remote_call (store : Store) (uid : String)
    (now : Int) (fetchResult : Option (List (String × Json)))
    (h : store uid = none) :
    bank store uid now fetchResult = (Except.ok BankMsg.mustRegister, []) := by
  simp [bank, h]

/-- C4 witness: a user absent from the empty store gets the
registration-required message with no API call, whatever the remote
would have answered. -/
theorem c4_witness :
    bank emptyStore "2" 0 (some [("log", Json.num 1)]) =
      (Except.ok BankMsg.mustRegister, []) ∧
    bank emptyStore "2" 0 none = (Except.ok BankMsg.mustRegister, []) :=
  ⟨c4_unregistered_report_no_remote_call emptyStore "2" 0 _ rfl,
   c4_unregistered_report_no_remote_call emptyStore "2" 0 none rfl⟩

/-- C9: deleting a non-existent entry does not raise (delete_key is a
total function), leaves the store unmodified and reports the not-found
message; deleting a present entry removes exactly that entry. Spec-
modelled: the deletekey command body is elided from src/main.py. -/
theorem c9_delete_exact_removal (store : Store) (uid : String) :
    (store uid = none → delete_key store uid = (store, DeleteMsg.notFound)) ∧
    (∀ r, store uid = some r →
      (delete_key store uid).2 = DeleteMsg.removed ∧
      (delete_key store uid).1 uid = none ∧
      ∀ u, u ≠ uid → (delete_key store uid).1 u = store u) := by
  constructor
  · intro h
    simp [delete_key, h]
  · intro r h
    refine ⟨by simp [delete_key, h], by simp [delete_key, h, storeRemove], ?_⟩
    intro u hu
    simp [delete_key, h, storeRemove, hu]

/-- C9 witness: deleting "2" from the empty store is a not-found no-op;
after inserting "1" and deleting it, "1" is gone and "3" is untouched. -/
theorem c9_witness :
    delete_key emptyStore "2" = (emptyStore, DeleteMsg.notFound) ∧
    (delete_key (storeInsert emptyStore "1" ⟨"k", Json.null⟩) "1").2 =
      DeleteMsg.removed ∧
    (delete_key (storeInsert emptyStore "1" ⟨"k", Json.null⟩) "1").1 "1" =
      none ∧
    (delete_key (storeInsert emptyStore "1" ⟨"k", Json.null⟩) "1").1 "3" =
      (storeInsert emptyStore "1" ⟨"k", Json.null⟩) "3" :=
  ⟨(c9_delete_exact_removal emptyStore "2").1 rfl,
   ((c9_delete_exact_removal (storeInsert emptyStore "1" ⟨"k", Json.null⟩)
      "1").2 ⟨"k", Json.null⟩ rfl).1,
   ((c9_delete_exact_removal (storeInsert emptyStore "1" ⟨"k", Json.null⟩)
      "1").2 ⟨"k", Json.null⟩ rfl).2.1,
   ((c9_delete_exact_removal (storeInsert emptyStore "1" ⟨"k", Json.null⟩)
      "1").2 ⟨"k", Json.null⟩ rfl).2.2 "3" (by decide)⟩

/-- C2: when the validation response is a non-empty dict without an
error field, the register command stores exactly the record made of the
supplied credential and the display name taken from the response (the
response's name field, the literal "Unknown" when that field is absent)
under the invoking user's identifier, overwriting any prior entry, and
every other user's entry is unchanged; the saved confirmation is sent. -/
theorem c2_register_success_stores_record (store : Store)
    (uid api_key : String) (td : List (String × Json))
    (hne : td.isEmpty = false) (herr : hasKey td "error" = false) :
    (key_command store uid api_key (some td)).2 =
      Except.ok (KeyMsg.saved ((jlookup td "name").getD (Json.str "Unknown"))) ∧
    (key_command store uid api_key (some td)).1 uid =
      some ⟨api_key, (jlookup td "name").getD (Json.str "Unknown")⟩ ∧
    ∀ u, u ≠ uid → (key_command store uid api_key (some td)).1 u = store u := by
  refine ⟨?_, ?_, ?_⟩
  · simp [key_command, hne, herr]
  · simp [key_command, hne, herr, storeInsert]
  · intro u hu
    simp [key_command, hne, herr, storeInsert, hu]

/-- C2 witness: registering with a response naming Alice stores the
credential with that name under the caller's id and confirms. -/
theorem c2_witness :
    (key_command emptyStore "1" "KEY" (some [("name", Json.str "Alice")])).2 =
      Except.ok (KeyMsg.saved (Json.str "Alice")) ∧
    (key_command emptyStore "1" "KEY" (some [("name", Json.str "Alice")])).1
      "1" = some ⟨"KEY", Json.str "Alice"⟩ ∧
    (key_command emptyStore "1" "KEY" (some [("name", Json.str "Alice")])).1
      "7" = emptyStore "7" :=
  ⟨(c2_register_success_stores_record emptyStore "1" "KEY"
      [("name", Json.str "Alice")] rfl rfl).1,
   (c2_register_success_stores_record emptyStore "1" "KEY"
      [("name", Json.str "Alice")] rfl rfl).2.1,
   (c2_register_success_stores_record emptyStore "1" "KEY"
      [("name", Json.str "Alice")] rfl rfl).2.2 "7" (by decide)⟩

/-- C5 counterexample: the value fetch_torn_data returns on failure does
not include the HTTP status: two failed responses with different
statuses (403 and 500) produce the identical return value None, so no
status can be recovered from the returned failure marker. -/
theorem c5_counterexample : ¬ fetchFailureMarkerIncludesStatus := fun h =>
  (h "basic" "k" ⟨403, Json.null⟩ ⟨500, Json.null⟩ (by decide) (by decide)
    (by decide)) rfl

/-- C5 (amended): fetch_torn_data returns the parsed body exactly on
HTTP 200; on any other status it returns the status-free failure marker
None, and the HTTP status of the failed response appears only in the
printed log line. -/
theorem c5_fetch_status_behaviour (sel key : String) (resp : HttpResponse) :
    (resp.status = 200 → fetch_torn_data sel key resp = (some resp.body, [])) ∧
    (resp.status ≠ 200 →
      fetch_torn_data sel key resp = (none, [failLogLine resp.status sel key])) := by
  constructor <;> intro h <;> simp [fetch_torn_data, h]

/-- C5 witness: a 200 response returns its body with no log line; a 500
response returns None and logs the failure line carrying status 500. -/
theorem c5_witness :
    fetch_torn_data "basic" "k" ⟨200, Json.null⟩ = (some Json.null, []) ∧
    fetch_torn_data "basic" "k" ⟨500, Json.null⟩ =
      (none, [failLogLine 500 "basic" "k"]) :=
  ⟨(c5_fetch_status_behaviour "basic" "k" ⟨200, Json.null⟩).1 rfl,
   (c5_fetch_status_behaviour "basic" "k" ⟨500, Json.null⟩).2 (by decide)⟩

/-- C1 counterexample: a failure response whose error field is present
but holds a non-dict value leaves the store unchanged but makes the
handler raise AttributeError on main.py line 79 (the chained `.get`)
before any message is sent, so the claim's "sends an error message" part
fails as stated on this input. -/
theorem c1_counterexample :
    hasKey [("error", Json.str "bad")] "error" = true ∧
    key_command emptyStore "1" "k" (some [("error", Json.str "bad")]) =
      (emptyStore, Except.error "AttributeError") :=
  ⟨rfl, rfl⟩

/-- C1 (amended): for every failure of the validation call (no parsed
response, or a parsed response containing an error field) the register
command leaves the credential store exactly as it was — no entry is
created or overwritten for any user; an error message is sent in every
such case except when the response's error field holds a non-dict value,
where the handler raises AttributeError, still without touching the
store. -/
theorem c1_register_failure_preserves_store (store : Store)
    (uid api_key : String) (torn_data : Option (List (String × Json)))
    (hfail : torn_data = none ∨
      ∃ td, torn_data = some td ∧ hasKey td "error" = true) :
    (key_command store uid api_key torn_data).1 = store ∧
    (registerRaises torn_data = false →
      ∃ m, (key_command store uid api_key torn_data).2 =
        Except.ok (KeyMsg.apiError m)) ∧
    (registerRaises torn_data = true →
      (key_command store uid api_key torn_data).2 =
        Except.error "AttributeError") := by
  rcases hfail with h | ⟨td, rfl, herr⟩
  · subst h
    refine ⟨rfl, fun _ => ⟨Json.str "Failed to connect to Torn API.", rfl⟩, ?_⟩
    intro h
    simp [registerRaises] at h
  · have hne : td.isEmpty = false := isEmpty_eq_false_of_hasKey td "error" herr
    refine ⟨?_, ?_, ?_⟩
    · by_cases hobj : errorValueIsObj td = true
      · obtain ⟨m, hm⟩ :=
          errorMsgOf_of_obj td "Invalid or restricted API key." hobj
        simp [key_command, hne, herr, hm]
      · rw [Bool.not_eq_true] at hobj
        have hm := errorMsgOf_of_not_obj td "Invalid or restricted API key." hobj
        simp [key_command, hne, herr, hm]
    · intro hr
      have hrr : registerRaises (some td) = !errorValueIsObj td := by
        simp [registerRaises, hne, herr]
      rw [hrr] at hr
      have hobj : errorValueIsObj td = true := by simpa using hr
      obtain ⟨m, hm⟩ :=
        errorMsgOf_of_obj td "Invalid or restricted API key." hobj
      exact ⟨m, by simp [key_command, hne, herr, hm]⟩
    · intro hr
      have hrr : registerRaises (some td) = !errorValueIsObj td := by
        simp [registerRaises, hne, herr]
      rw [hrr] at hr
      have hobj : errorValueIsObj td = false := by simpa using hr
      have hm := errorMsgOf_of_not_obj td "Invalid or restricted API key." hobj
      simp [key_command, hne, herr, hm]

/-- C1 witness: with a well-formed error payload the store is untouched
and an error message is sent. -/
theorem c1_witness :
    (key_command emptyStore "1" "k"
      (some [("error", Json.obj [("error", Json.str "bad key")])])).1 =
      emptyStore ∧
    ∃ m, (key_command emptyStore "1" "k"
      (some [("error", Json.obj [("error", Json.str "bad key")])])).2 =
        Except.ok (KeyMsg.apiError m) :=
  ⟨(c1_register_failure_preserves_store emptyStore "1" "k"
      (some [("error", Json.obj [("error", Json.str "bad key")])])
      (Or.inr ⟨[("error", Json.obj [("error", Json.str "bad key")])],
        rfl, rfl⟩)).1,
   (c1_register_failure_preserves_store emptyStore "1" "k"
      (some [("error", Json.obj [("error", Json.str "bad key")])])
      (Or.inr ⟨[("error", Json.obj [("error", Json.str "bad key")])],
        rfl, rfl⟩)).2.1 rfl⟩

/-- C6 counterexample: a successfully fetched response (non-empty, no
error field) containing no log key but a non-dict networth value makes
report generation raise AttributeError on main.py line 139 instead of
completing, so the claim as stated fails on this response. -/
theorem c6_counterexample :
    [("x", Json.num 1), ("networth", Json.num 5)].isEmpty = false ∧
    hasKey [("x", Json.num 1), ("networth", Json.num 5)] "error" = false ∧
    hasKey [("x", Json.num 1), ("networth", Json.num 5)] "log" = false ∧
    (bank (storeInsert emptyStore "1" ⟨"k", Json.str "P"⟩) "1" 0
      (some [("x", Json.num 1), ("networth", Json.num 5)])).1 =
      Except.error "AttributeError" :=
  ⟨rfl, rfl, rfl, rfl⟩

/-- C6 (amended): for every successfully fetched response without a log
key whose networth section the formatter accepts (falsy, or a dict whose
total, if present, is numeric), report generation completes without
error and the rendered report contains the fixed no-transactions line in
place of the transaction list. -/
theorem c6_missing_log_shows_no_transactions (store : Store) (uid : String)
    (rec : UserRecord) (now : Int) (ad : List (String × Json))
    (hreg : store uid = some rec)
    (hne : ad.isEmpty = false)
    (herr : hasKey ad "error" = false)
    (hlog : hasKey ad "log" = false)
    (hnw : nwOk ((jlookup ad "networth").getD (Json.obj [])) = true) :
    (bank store uid now (some ad)).1 =
      Except.ok (BankMsg.report
        ([ReportLine.header rec.player, ReportLine.blank,
          ReportLine.noTransactions] ++
          netLinesSpec ((jlookup ad "networth").getD (Json.obj [])))) := by
  have hl := jlookup_eq_none_of_hasKey ad "log" hlog
  have hnet := networthLines_eq ((jlookup ad "networth").getD (Json.obj [])) hnw
  simp only [bank, hreg, bankAfterFetch, hne, herr, hl, Bool.false_eq_true,
    if_false, reduceIte, Option.getD_none, processLogs, jvaluesE,
    bankFilterLoop, List.map_nil, List.isEmpty_nil, hnet, bind, Except.bind,
    List.cons_append, List.nil_append]

/-- C6 witness: a registered user whose fetched response has no log key
(and no networth section) gets a completed report carrying the
no-transactions line. -/
theorem c6_witness :
    (bank (storeInsert emptyStore "1" ⟨"k", Json.str "P"⟩) "1" 0
      (some [("x", Json.num 1)])).1 =
      Except.ok (BankMsg.report
        [ReportLine.header (Json.str "P"), ReportLine.blank,
         ReportLine.noTransactions]) :=
  c6_missing_log_shows_no_transactions
    (storeInsert emptyStore "1" ⟨"k", Json.str "P"⟩) "1" ⟨"k", Json.str "P"⟩
    0 [("x", Json.num 1)] rfl rfl rfl rfl rfl

/-- C8 counterexample: a networth section with entries but no total
still makes the report end with a networth line (showing the default 0),
so the claim's "when the total is absent no net-worth line is appended"
fails as stated. -/
theorem c8_counterexample :
    jlookup [("wallet", Json.num 5)] "total" = none ∧
    (bank (storeInsert emptyStore "1" ⟨"k", Json.str "P"⟩) "1" 0
      (some [("networth", Json.obj [("wallet", Json.num 5)])])).1 =
      Except.ok (BankMsg.report
        [ReportLine.header (Json.str "P"), ReportLine.blank,
         ReportLine.noTransactions, ReportLine.networthLine 0]) :=
  ⟨rfl, rfl⟩

/-- C8 (amended): whenever the report is produced, it ends with a
formatted networth line if and only if the response's networth section
is truthy (for a dict: non-empty); the line shows the section's total
when present and the default 0 when absent. When the section is falsy no
networth line appears anywhere in the report. -/
theorem c8_networth_line_iff_section_truthy (store : Store) (uid : String)
    (rec : UserRecord) (now : Int) (ad logMap : List (String × Json))
    (hreg : store uid = some rec)
    (hne : ad.isEmpty = false)
    (herr : hasKey ad "error" = false)
    (hlog : jlookup ad "log" = some (Json.obj logMap))
    (hwf : (logMap.map Prod.snd).all wfEntry = true)
    (hnw : nwOk ((jlookup ad "networth").getD (Json.obj [])) = true) :
    (bank store uid now (some ad)).1 =
      Except.ok (BankMsg.report (reportLinesSpec rec (now - 60 * 86400) logMap
        ((jlookup ad "networth").getD (Json.obj [])))) ∧
    (((jlookup ad "networth").getD (Json.obj [])).truthy = true →
      (reportLinesSpec rec (now - 60 * 86400) logMap
        ((jlookup ad "networth").getD (Json.obj []))).getLast? =
        some (ReportLine.networthLine
          (netValue ((jlookup ad "networth").getD (Json.obj []))))) ∧
    (((jlookup ad "networth").getD (Json.obj [])).truthy = false →
      ∀ l ∈ reportLinesSpec rec (now - 60 * 86400) logMap
        ((jlookup ad "networth").getD (Json.obj [])),
        ∀ n : Int, l ≠ ReportLine.networthLine n) := by
  refine ⟨bank_report_eq store uid rec now ad logMap hreg hne herr hlog hwf hnw,
    ?_, ?_⟩
  · intro ht
    unfold reportLinesSpec netLinesSpec
    rw [ht, if_pos rfl]
    exact List.getLast?_concat _
  · intro ht l hl n
    unfold reportLinesSpec netLinesSpec at hl
    rw [ht] at hl
    simp only [Bool.false_eq_true, if_false, List.append_nil, List.mem_append,
      List.mem_cons, List.not_mem_nil, or_false] at hl
    rcases hl with (rfl | rfl) | h2
    · simp
    · simp
    · unfold logLinesSpec at h2
      by_cases hk : (keptSpec (now - 60 * 86400) logMap).isEmpty = true
      · rw [if_pos hk] at h2
        simp only [List.mem_cons, List.not_mem_nil, or_false] at h2
        subst h2
        simp
      · rw [if_neg hk] at h2
        obtain ⟨e, he, rfl⟩ := List.mem_map.1 h2
        simp

/-- C8 witness: a networth section with total 7 yields a report whose
last line is the networth line showing 7. -/
theorem c8_witness :
    (bank (storeInsert emptyStore "1" ⟨"k", Json.str "P"⟩) "1" 0
      (some [("log", Json.obj []),
        ("networth", Json.obj [("total", Json.num 7)])])).1 =
      Except.ok (BankMsg.report
        [ReportLine.header (Json.str "P"), ReportLine.blank,
         ReportLine.noTransactions, ReportLine.networthLine 7]) ∧
    (reportLinesSpec ⟨"k", Json.str "P"⟩ (0 - 60 * 86400) []
      (Json.obj [("total", Json.num 7)])).getLast? =
      some (ReportLine.networthLine 7) :=
  ⟨(c8_networth_line_iff_section_truthy
      (storeInsert emptyStore "1" ⟨"k", Json.str "P"⟩) "1" ⟨"k", Json.str "P"⟩
      0 [("log", Json.obj []), ("networth", Json.obj [("total", Json.num 7)])]
      [] rfl rfl rfl rfl rfl rfl).1,
   (c8_networth_line_iff_section_truthy
      (storeInsert emptyStore "1" ⟨"k", Json.str "P"⟩) "1" ⟨"k", Json.str "P"⟩
      0 [("log", Json.obj []), ("networth", Json.obj [("total", Json.num 7)])]
      [] rfl rfl rfl rfl rfl rfl).2.1 rfl⟩

/-- C10: the log-processing stage of report generation (the unguarded
indexing on main.py lines 121-127 and 133-135) is total exactly under
the precondition that every value of the fetched log map is a dict
carrying an integer timestamp and a string title: under the precondition
the stage always produces the report's log section (and, when the log is
the only section, the whole report is produced), while an entry missing
the timestamp field makes the stage raise KeyError. -/
theorem c10_log_field_precondition_totality :
    (∀ (cutoff : Int) (logMap : List (String × Json)),
      (logMap.map Prod.snd).all wfEntry = true →
      processLogs cutoff (Json.obj logMap) =
        Except.ok (logLinesSpec cutoff logMap)) ∧
    processLogs 0 (Json.obj [("1", Json.obj [("title", Json.str "paid")])]) =
      Except.error "KeyError" ∧
    (∀ (store : Store) (uid : String) (rec : UserRecord) (now : Int)
        (logMap : List (String × Json)),
      store uid = some rec →
      (logMap.map Prod.snd).all wfEntry = true →
      (bank store uid now (some [("log", Json.obj logMap)])).1 =
        Except.ok (BankMsg.report
          (reportLinesSpec rec (now - 60 * 86400) logMap (Json.obj [])))) := by
  refine ⟨processLogs_eq, rfl, ?_⟩
  intro store uid rec now logMap hreg hwf
  exact bank_report_eq store uid rec now [("log", Json.obj logMap)] logMap
    hreg rfl rfl rfl hwf rfl

/-- C10 witness: a log map whose single entry carries both fields is
processed to a log section without error. -/
theorem c10_witness :
    processLogs 0 (Json.obj [("1", Json.obj [("timestamp", Json.num 5),
        ("title", Json.str "paid x")])]) =
      Except.ok (logLinesSpec 0 [("1", Json.obj [("timestamp", Json.num 5),
        ("title", Json.str "paid x")])]) :=
  c10_log_field_precondition_totality.1 0
    [("1", Json.obj [("timestamp", Json.num 5),
      ("title", Json.str "paid x")])] rfl

/-- C3: for a registered user and a successfully fetched response whose
log map holds well-formed entries, the rendered report's log section is
exactly the entries whose timestamp is at or after now minus 60 days and
whose lowercased title contains one of the keywords, stably sorted by
timestamp descending, truncated to the first 25, each rendered once as
one line; every retained entry satisfies the filter, the retained list
is sorted descending, and its length is at most 25. -/
theorem c3_report_filters_sorts_caps (store : Store) (uid : String)
    (rec : UserRecord) (now : Int) (ad logMap : List (String × Json))
    (hreg : store uid = some rec)
    (hne : ad.isEmpty = false)
    (herr : hasKey ad "error" = false)
    (hlog : jlookup ad "log" = some (Json.obj logMap))
    (hwf : (logMap.map Prod.snd).all wfEntry = true)
    (hnw : nwOk ((jlookup ad "networth").getD (Json.obj [])) = true) :
    (bank store uid now (some ad)).1 =
      Except.ok (BankMsg.report (reportLinesSpec rec (now - 60 * 86400) logMap
        ((jlookup ad "networth").getD (Json.obj [])))) ∧
    keptSpec (now - 60 * 86400) logMap =
      (logMap.map Prod.snd).filter (keepB (now - 60 * 86400)) ∧
    topSpec (now - 60 * 86400) logMap =
      (List.insertionSort tsGe (keptSpec (now - 60 * 86400) logMap)).take 25 ∧
    (∀ e ∈ topSpec (now - 60 * 86400) logMap,
      ∃ n s, tsNum e = some n ∧ titleStr e = some s ∧
        now - 60 * 86400 ≤ n ∧ hasKeywordB s = true) ∧
    List.Sorted tsGe (topSpec (now - 60 * 86400) logMap) ∧
    (topSpec (now - 60 * 86400) logMap).length ≤ 25 := by
  refine ⟨bank_report_eq store uid rec now ad logMap hreg hne herr hlog hwf hnw,
    rfl, rfl, ?_, ?_, ?_⟩
  · intro e he
    exact keepB_elim (now - 60 * 86400) e
      (mem_topSpec_keepB (now - 60 * 86400) logMap e he)
  · exact List.Pairwise.sublist (List.take_sublist 25 _)
      (List.sorted_insertionSort tsGe (keptSpec (now - 60 * 86400) logMap))
  · exact List.length_take_le 25 _

/-- C3 witness: of four entries — a kept deposit at day 90, a kept
payment at day 95, a payment outside the 60-day window, and a recent
entry without keywords — the report renders exactly the two kept ones,
newest first. -/
theorem c3_witness :
    (bank (storeInsert emptyStore "1" ⟨"k", Json.str "P"⟩) "1" (100 * 86400)
      (some [("log", Json.obj
        [("1", Json.obj [("timestamp", Json.num (90 * 86400)),
            ("title", Json.str "Deposit made")]),
         ("2", Json.obj [("timestamp", Json.num (95 * 86400)),
            ("title", Json.str "Paid rent")]),
         ("3", Json.obj [("timestamp", Json.num (10 * 86400)),
            ("title", Json.str "Paid old")]),
         ("4", Json.obj [("timestamp", Json.num (96 * 86400)),
            ("title", Json.str "Joined faction")])])])).1 =
      Except.ok (BankMsg.report
        [ReportLine.header (Json.str "P"), ReportLine.blank,
         ReportLine.entry (95 * 86400) (Json.str "Paid rent"),
         ReportLine.entry (90 * 86400) (Json.str "Deposit made")]) :=
  (c3_report_filters_sorts_caps
    (storeInsert emptyStore "1" ⟨"k", Json.str "P"⟩) "1" ⟨"k", Json.str "P"⟩
    (100 * 86400)
    [("log", Json.obj
      [("1", Json.obj [("timestamp", Json.num (90 * 86400)),
          ("title", Json.str "Deposit made")]),
       ("2", Json.obj [("timestamp", Json.num (95 * 86400)),
          ("title", Json.str "Paid rent")]),
       ("3", Json.obj [("timestamp", Json.num (10 * 86400)),
          ("title", Json.str "Paid old")]),
       ("4", Json.obj [("timestamp", Json.num (96 * 86400)),
          ("title", Json.str "Joined faction")])])]
    [("1", Json.obj [("timestamp", Json.num (90 * 86400)),
        ("title", Json.str "Deposit made")]),
     ("2", Json.obj [("timestamp", Json.num (95 * 86400)),
        ("title", Json.str "Paid rent")]),
     ("3", Json.obj [("timestamp", Json.num (10 * 86400)),
        ("title", Json.str "Paid old")]),
     ("4", Json.obj [("timestamp", Json.num (96 * 86400)),
        ("title", Json.str "Joined faction")])]
    rfl rfl rfl rfl rfl rfl).1

end TornBank
